import Mathlib

/-!
Verification development for the python-functionfs core: a shallow embedding
of the descriptor compiler, string-table compiler, endpoint-zero control
dispatcher and asynchronous endpoint transfer engine found in
functionfs/__init__.py, together with theorems checking the natural-language
specification against that embedding.
-/

namespace Functionfs

/-! ## Constants from functionfs/ch9.py -/

def USB_DIR_IN : Nat := 0x80

def USB_ENDPOINT_XFERTYPE_MASK : Nat := 0x03

def USB_ENDPOINT_XFER_ISOC : Nat := 1

def USB_ENDPOINT_XFER_BULK : Nat := 2

def USB_ENDPOINT_XFER_INT : Nat := 3

/-! ## Exact rational counterparts of the arithmetic in getInterfaceInAllSpeeds

The source computes full-speed intervals with the Python builtin round
(round-half-to-even) and high-speed intervals with
int(round(1 + math.log(interval * 8, 2))).  pyRound embeds the builtin
exactly; roundOnePlusLog2 computes round(1 + log2 y) exactly for positive
rational y through the integer logarithm (the rounding tie would need
log2 y to be a half-integer, which never happens on rationals).
-/

/-- Python round: nearest integer, ties to the even integer. -/
def pyRound (q : ℚ) : ℤ :=
  let f : ℤ := ⌊q⌋
  let r : ℚ := q - f
  if r < 1 / 2 then f
  else if 1 / 2 < r then f + 1
  else if f % 2 = 0 then f else f + 1

/-- Exact value of round(1 + log2 y) for a positive rational y, computed with
the integer base-2 logarithm: with k the floor of log2 y, the rounded value
is 1 + k when y is below the midpoint 2 ^ (k + 1/2), i.e. when
y ^ 2 < 2 ^ (2k + 1), and 2 + k otherwise. -/
def roundOnePlusLog2 (y : ℚ) : ℤ :=
  let k : ℤ := Int.log 2 y
  if y ^ 2 < (2 : ℚ) ^ (2 * k + 1) then 1 + k else 2 + k

/-! ## Descriptor compiler: getInterfaceInAllSpeeds

Embedding of functionfs/__init__.py lines 135-275.  The model keeps, for
each endpoint of the input list, the three per-speed endpoint descriptors
(full, high, super) with the fields the compiler computes:
bEndpointAddress, wMaxPacketSize and bInterval.  The interface descriptor,
the class descriptor list and the superspeed companion descriptors carry no
field computed per endpoint and are not represented; the failure paths of
the source (KeyError on an unknown transfer type, IndexError on an empty
endpoint list, ValueError on an inconsistent isochronous companion) are
modelled by returning none. -/

/-- Keyword arguments of one endpoint dict (the "endpoint" entry).
bInterval is kept as a rational since the source accepts non-integer
millisecond values. -/
structure EndpointKw where
  bEndpointAddress : Option Nat
  bmAttributes : Nat
  wMaxPacketSize : Option Nat
  bInterval : Option ℚ
deriving DecidableEq

/-- One entry of endpoint_list: the endpoint keywords, the bmAttributes of
the optional superspeed companion dict (0 when absent, matching the
source .get default), and whether a superspeed_iso dict was given. -/
structure EndpointEntry where
  endpoint : EndpointKw
  superspeed_bmAttributes : Nat
  superspeed_iso : Bool
deriving DecidableEq

/-- Fields of one compiled endpoint descriptor at one speed. -/
structure CompiledEndpoint where
  bEndpointAddress : Nat
  wMaxPacketSize : Nat
  bInterval : ℚ
deriving DecidableEq

/-- MAX_PACKET_SIZE_DICT from functionfs/__init__.py lines 115-131: the
(full, high, super) wMaxPacketSize ceilings per transfer type; lookup of any
other type raises KeyError in the source, hence none. -/
def MAX_PACKET_SIZE_DICT (transfer_type : Nat) : Option (Nat × Nat × Nat) :=
  if transfer_type = USB_ENDPOINT_XFER_ISOC then some (1023, 1024, 1024)
  else if transfer_type = USB_ENDPOINT_XFER_BULK then some (64, 512, 1024)
  else if transfer_type = USB_ENDPOINT_XFER_INT then some (64, 1024, 1024)
  else none

/-- Modelled from the spec: ch9.USB_SS_SSP_ISOC_COMP is called by
getInterfaceInAllSpeeds but is not defined anywhere under src/; the
docstring of getInterfaceInAllSpeeds describes the condition as the
superspeed dict having bmAttributes bit 7 set, so the helper extracts
bit 7. -/
def USB_SS_SSP_ISOC_COMP (p : Nat) : Nat := p &&& 0x80

/-- Value of a Python expression a & ~USB_DIR_IN on a non-negative int:
clear bit 7, keep every other bit. -/
def landNotDirIn (a : Nat) : Nat := a ^^^ (a &&& USB_DIR_IN)

/-- The (fs_interval, hs_interval) pair computed at lines 214-227 of the
source for one endpoint (hs_interval is also used for the super-speed
descriptor).  A missing bInterval gives (0, 0); a bulk endpoint gets 0 at
full speed and the raw value at high speed; an interrupt or isochronous
endpoint gets the millisecond value rounded and clamped to 1..255 at full
speed and the power-of-two code clamped to 1..16 at high speed. -/
def intervalPair (transfer_type : Nat) (interval : Option ℚ) : ℚ × ℚ :=
  match interval with
  | none => (0, 0)
  | some q =>
    if transfer_type = USB_ENDPOINT_XFER_BULK then (0, q)
    else
      (((max 1 (min 255 (pyRound q)) : ℤ) : ℚ),
        ((max 1 (min 16 (roundOnePlusLog2 (q * 8))) : ℤ) : ℚ))

/-- The (fs, hs, ss) wMaxPacketSize triple computed at lines 228-236 of the
source: the ceiling when no explicit size is given, otherwise the explicit
size clamped by min against each ceiling. -/
def packetSizeTriple (fs_max hs_max ss_max : Nat) (packet_size : Option Nat) :
    Nat × Nat × Nat :=
  match packet_size with
  | none => (fs_max, hs_max, ss_max)
  | some v => (min fs_max v, min hs_max v, min ss_max v)

/-- Compilation of one endpoint entry at 1-based rank index: lines 199-274
of the source.  Returns the (full, high, super) compiled descriptors, or
none when the source raises (unknown transfer type, inconsistent
isochronous companion). -/
def compileEndpoint (need_address : Bool) (index : Nat) (e : EndpointEntry) :
    Option (CompiledEndpoint × CompiledEndpoint × CompiledEndpoint) :=
  let kw := e.endpoint
  let transfer_type := kw.bmAttributes &&& USB_ENDPOINT_XFERTYPE_MASK
  match MAX_PACKET_SIZE_DICT transfer_type with
  | none => none
  | some (fs_max, hs_max, ss_max) =>
    let address :=
      if need_address then index ||| (kw.bEndpointAddress.getD 0 &&& USB_DIR_IN)
      else kw.bEndpointAddress.getD 0
    let iv := intervalPair transfer_type kw.bInterval
    let ps := packetSizeTriple fs_max hs_max ss_max kw.wMaxPacketSize
    if e.superspeed_iso !=
        ((transfer_type == USB_ENDPOINT_XFER_ISOC) &&
          (USB_SS_SSP_ISOC_COMP e.superspeed_bmAttributes != 0)) then
      none
    else
      some (⟨address, ps.1, iv.1⟩, ⟨address, ps.2.1, iv.2⟩,
        ⟨address, ps.2.2, iv.2⟩)

/-- Compilation of the tail of endpoint_list starting at rank index. -/
def compileEndpointList (need_address : Bool) (index : Nat) :
    List EndpointEntry →
      Option (List (CompiledEndpoint × CompiledEndpoint × CompiledEndpoint))
  | [] => some []
  | e :: rest =>
    match compileEndpoint need_address index e with
    | none => none
    | some c =>
      match compileEndpointList need_address (index + 1) rest with
      | none => none
      | some cs => some (c :: cs)

/-- getInterfaceInAllSpeeds, restricted to the per-endpoint descriptor
fields.  An empty endpoint list raises IndexError in the source (it reads
endpoint_list[0]); otherwise the renumbering decision is taken from the
first endpoint only. -/
def getInterfaceInAllSpeeds (endpoint_list : List EndpointEntry) :
    Option (List (CompiledEndpoint × CompiledEndpoint × CompiledEndpoint)) :=
  match endpoint_list with
  | [] => none
  | first :: _ =>
    compileEndpointList
      (landNotDirIn (first.endpoint.bEndpointAddress.getD 0) == 0)
      1 endpoint_list

/-! ## Helper lemmas about the descriptor compiler -/

theorem compileEndpointList_get (na : Bool) (idx : Nat) (l : List EndpointEntry)
    (out : List (CompiledEndpoint × CompiledEndpoint × CompiledEndpoint))
    (h : compileEndpointList na idx l = some out) :
    ∀ i e c, l.get? i = some e → out.get? i = some c →
      compileEndpoint na (idx + i) e = some c := by
  induction l generalizing idx out with
  | nil =>
    intro i e c he _
    simp [List.get?] at he
  | cons a rest ih =>
    simp only [compileEndpointList] at h
    cases hc : compileEndpoint na idx a with
    | none => rw [hc] at h; exact absurd h (by simp)
    | some c0 =>
      rw [hc] at h
      cases hr : compileEndpointList na (idx + 1) rest with
      | none => rw [hr] at h; exact absurd h (by simp)
      | some cs =>
        rw [hr] at h
        simp only [Option.some.injEq] at h
        subst h
        intro i e c he hoc
        cases i with
        | zero =>
          simp only [List.get?] at he hoc
          cases he; cases hoc
          simpa using hc
        | succ n =>
          simp only [List.get?] at he hoc
          have := ih (idx + 1) cs hr n e c he hoc
          have harith : idx + 1 + n = idx + (n + 1) := by omega
          rwa [harith] at this

theorem MAX_PACKET_SIZE_DICT_cases (t : Nat) (m : Nat × Nat × Nat)
    (h : MAX_PACKET_SIZE_DICT t = some m) :
    (t = USB_ENDPOINT_XFER_ISOC ∧ m = (1023, 1024, 1024)) ∨
    (t = USB_ENDPOINT_XFER_BULK ∧ m = (64, 512, 1024)) ∨
    (t = USB_ENDPOINT_XFER_INT ∧ m = (64, 1024, 1024)) := by
  unfold MAX_PACKET_SIZE_DICT at h
  split_ifs at h with h1 h2 h3 <;> simp_all

theorem compileEndpoint_spec (na : Bool) (idx : Nat) (e : EndpointEntry)
    (c : CompiledEndpoint × CompiledEndpoint × CompiledEndpoint)
    (h : compileEndpoint na idx e = some c) :
    ∃ m : Nat × Nat × Nat,
      MAX_PACKET_SIZE_DICT
        (e.endpoint.bmAttributes &&& USB_ENDPOINT_XFERTYPE_MASK) = some m ∧
      c =
        (⟨if na then idx ||| (e.endpoint.bEndpointAddress.getD 0 &&& USB_DIR_IN)
            else e.endpoint.bEndpointAddress.getD 0,
          (packetSizeTriple m.1 m.2.1 m.2.2 e.endpoint.wMaxPacketSize).1,
          (intervalPair (e.endpoint.bmAttributes &&& USB_ENDPOINT_XFERTYPE_MASK)
            e.endpoint.bInterval).1⟩,
         ⟨if na then idx ||| (e.endpoint.bEndpointAddress.getD 0 &&& USB_DIR_IN)
            else e.endpoint.bEndpointAddress.getD 0,
          (packetSizeTriple m.1 m.2.1 m.2.2 e.endpoint.wMaxPacketSize).2.1,
          (intervalPair (e.endpoint.bmAttributes &&& USB_ENDPOINT_XFERTYPE_MASK)
            e.endpoint.bInterval).2⟩,
         ⟨if na then idx ||| (e.endpoint.bEndpointAddress.getD 0 &&& USB_DIR_IN)
            else e.endpoint.bEndpointAddress.getD 0,
          (packetSizeTriple m.1 m.2.1 m.2.2 e.endpoint.wMaxPacketSize).2.2,
          (intervalPair (e.endpoint.bmAttributes &&& USB_ENDPOINT_XFERTYPE_MASK)
            e.endpoint.bInterval).2⟩) := by
  simp only [compileEndpoint] at h
  cases hd : MAX_PACKET_SIZE_DICT
      (e.endpoint.bmAttributes &&& USB_ENDPOINT_XFERTYPE_MASK) with
  | none => rw [hd] at h; exact absurd h (by simp)
  | some m =>
    obtain ⟨fsm, hsm, ssm⟩ := m
    rw [hd] at h
    simp only at h
    refine ⟨(fsm, hsm, ssm), rfl, ?_⟩
    by_cases hiso : (e.superspeed_iso !=
        ((e.endpoint.bmAttributes &&& USB_ENDPOINT_XFERTYPE_MASK ==
            USB_ENDPOINT_XFER_ISOC) &&
          (USB_SS_SSP_ISOC_COMP e.superspeed_bmAttributes != 0))) = true
    · rw [if_pos hiso] at h; exact absurd h (by simp)
    · rw [if_neg hiso] at h
      simp only [Option.some.injEq] at h
      exact h.symm

/-! ## Concrete endpoint lists used by witnesses and counterexamples -/

/-- Interrupt IN endpoint with explicit address and oversized explicit
wMaxPacketSize. -/
def c1wEntry : EndpointEntry := ⟨⟨some 0x81, 3, some 2000, none⟩, 0, false⟩

/-- The compiled descriptors of c1wEntry. -/
def c1wOut : CompiledEndpoint × CompiledEndpoint × CompiledEndpoint :=
  (⟨0x81, 64, 0⟩, ⟨0x81, 1024, 0⟩, ⟨0x81, 1024, 0⟩)

/-- Bulk IN endpoint carrying only the direction bit in its address. -/
def bulkInEntry : EndpointEntry := ⟨⟨some 0x80, 2, none, none⟩, 0, false⟩

/-- Bulk OUT endpoint with no address given. -/
def bulkOutEntry : EndpointEntry := ⟨⟨none, 2, none, none⟩, 0, false⟩

/-- The bulk-IN plus bulk-OUT interface of the spec scenario. -/
def scenarioList : List EndpointEntry := [bulkInEntry, bulkOutEntry]

/-- Compiled descriptors of scenarioList. -/
def scenarioOut : List (CompiledEndpoint × CompiledEndpoint × CompiledEndpoint) :=
  [(⟨0x81, 64, 0⟩, ⟨0x81, 512, 0⟩, ⟨0x81, 1024, 0⟩),
   (⟨2, 64, 0⟩, ⟨2, 512, 0⟩, ⟨2, 1024, 0⟩)]

/-- Endpoint list whose first endpoint has an explicit non-zero address while
the second endpoint has an unspecified (zero) address. -/
def c3CexList : List EndpointEntry :=
  [⟨⟨some 3, 2, none, none⟩, 0, false⟩, ⟨⟨some 0, 2, none, none⟩, 0, false⟩]

/-! ## C1 -/

/-- C1: for every endpoint compiled by getInterfaceInAllSpeeds, when no
explicit wMaxPacketSize is given the compiled sizes are the
(speed, transfer-type) ceiling table values (isochronous 1023/1024/1024,
bulk 64/512/1024, interrupt 64/1024/1024 at full/high/super speed), and when
an explicit value is given the compiled size is min(ceiling, explicit), so
it never exceeds the ceiling. -/
theorem wMaxPacketSize_ceiling_clamp (l : List EndpointEntry)
    (out : List (CompiledEndpoint × CompiledEndpoint × CompiledEndpoint))
    (i : Nat) (e : EndpointEntry)
    (c : CompiledEndpoint × CompiledEndpoint × CompiledEndpoint)
    (hout : getInterfaceInAllSpeeds l = some out)
    (he : l.get? i = some e) (hc : out.get? i = some c) :
    ∃ fsm hsm ssm : Nat,
      ((e.endpoint.bmAttributes &&& USB_ENDPOINT_XFERTYPE_MASK =
            USB_ENDPOINT_XFER_ISOC ∧ (fsm, hsm, ssm) = (1023, 1024, 1024)) ∨
       (e.endpoint.bmAttributes &&& USB_ENDPOINT_XFERTYPE_MASK =
            USB_ENDPOINT_XFER_BULK ∧ (fsm, hsm, ssm) = (64, 512, 1024)) ∨
       (e.endpoint.bmAttributes &&& USB_ENDPOINT_XFERTYPE_MASK =
            USB_ENDPOINT_XFER_INT ∧ (fsm, hsm, ssm) = (64, 1024, 1024))) ∧
      (e.endpoint.wMaxPacketSize = none →
        c.1.wMaxPacketSize = fsm ∧ c.2.1.wMaxPacketSize = hsm ∧
          c.2.2.wMaxPacketSize = ssm) ∧
      (∀ v, e.endpoint.wMaxPacketSize = some v →
        c.1.wMaxPacketSize = min fsm v ∧ c.2.1.wMaxPacketSize = min hsm v ∧
          c.2.2.wMaxPacketSize = min ssm v ∧
          c.1.wMaxPacketSize ≤ fsm ∧ c.2.1.wMaxPacketSize ≤ hsm ∧
          c.2.2.wMaxPacketSize ≤ ssm) := by
  obtain ⟨first, rest, rfl⟩ : ∃ f r, l = f :: r := by
    cases l with
    | nil => simp [getInterfaceInAllSpeeds] at hout
    | cons a b => exact ⟨a, b, rfl⟩
  simp only [getInterfaceInAllSpeeds] at hout
  have hpt := compileEndpointList_get _ _ _ _ hout i e c he hc
  obtain ⟨m, hdict, hceq⟩ := compileEndpoint_spec _ _ _ _ hpt
  obtain ⟨fsm, hsm, ssm⟩ := m
  refine ⟨fsm, hsm, ssm, MAX_PACKET_SIZE_DICT_cases _ _ hdict, ?_, ?_⟩
  · intro hnone
    subst hceq
    simp [packetSizeTriple, hnone]
  · intro v hv
    subst hceq
    simp [packetSizeTriple, hv, Nat.min_le_left]

/-- Witness for C1 at a concrete interrupt endpoint with explicit
wMaxPacketSize 2000: the compiled sizes are the clamped values. -/
theorem wMaxPacketSize_ceiling_clamp_witness :
    c1wOut.1.wMaxPacketSize = min 64 2000 ∧
    c1wOut.2.1.wMaxPacketSize = min 1024 2000 ∧
    c1wOut.2.2.wMaxPacketSize = min 1024 2000 ∧
    c1wOut.1.wMaxPacketSize ≤ 64 := by
  obtain ⟨fsm, hsm, ssm, htab, _, hsome⟩ :=
    wMaxPacketSize_ceiling_clamp [c1wEntry] [c1wOut] 0 c1wEntry c1wOut
      (by decide) rfl rfl
  rcases htab with ⟨ht, _⟩ | ⟨ht, _⟩ | ⟨_, heq⟩
  · exact absurd ht (by decide)
  · exact absurd ht (by decide)
  · obtain ⟨h1, h2, h3, h4, _⟩ := hsome 2000 rfl
    cases heq
    exact ⟨h1, h2, h3, h4⟩

/-! ## C3 -/

/-- C3 counterexample: in c3CexList the second endpoint has an unspecified
(zero) bEndpointAddress, yet the compiled descriptors keep address 0 for it
at every speed instead of assigning its 1-based rank 2, because the source
only renumbers when the FIRST endpoint of the list has an unspecified
address. -/
theorem endpointAddress_claim_counterexample :
    (getInterfaceInAllSpeeds c3CexList).map
        (List.map fun t => (t.1.bEndpointAddress, t.2.1.bEndpointAddress)) =
      some [(3, 3), (0, 0)] ∧
    some [(3, 3), (0, 0)] ≠ some ([(3, 3), (2, 2)] : List (Nat × Nat)) :=
  ⟨by decide, by decide⟩

/-- C3 (amended): when the first endpoint of the list has an unspecified
(zero, excluding the direction bit) bEndpointAddress, every endpoint of the
list is assigned its 1-based rank as its address at every speed, with its
direction bit preserved; and the bulk-IN plus bulk-OUT scenario compiles to
addresses 0x81 and 2 at full and high speed with full-speed wMaxPacketSize
64 and high-speed wMaxPacketSize 512. -/
theorem endpointAddress_autoAssign (l : List EndpointEntry)
    (out : List (CompiledEndpoint × CompiledEndpoint × CompiledEndpoint))
    (e0 : EndpointEntry)
    (hout : getInterfaceInAllSpeeds l = some out)
    (h0 : l.get? 0 = some e0)
    (hfirst : landNotDirIn (e0.endpoint.bEndpointAddress.getD 0) = 0) :
    (∀ i e c, l.get? i = some e → out.get? i = some c →
      c.1.bEndpointAddress =
          (i + 1) ||| (e.endpoint.bEndpointAddress.getD 0 &&& USB_DIR_IN) ∧
      c.2.1.bEndpointAddress =
          (i + 1) ||| (e.endpoint.bEndpointAddress.getD 0 &&& USB_DIR_IN) ∧
      c.2.2.bEndpointAddress =
          (i + 1) ||| (e.endpoint.bEndpointAddress.getD 0 &&& USB_DIR_IN)) ∧
    (getInterfaceInAllSpeeds scenarioList).map
        (List.map fun t =>
          ((t.1.bEndpointAddress, t.1.wMaxPacketSize),
            (t.2.1.bEndpointAddress, t.2.1.wMaxPacketSize))) =
      some [((0x81, 64), (0x81, 512)), ((2, 64), (2, 512))] := by
  constructor
  · obtain ⟨first, rest, rfl⟩ : ∃ f r, l = f :: r := by
      cases l with
      | nil => simp [getInterfaceInAllSpeeds] at hout
      | cons a b => exact ⟨a, b, rfl⟩
    simp only [List.get?] at h0
    cases h0
    simp only [getInterfaceInAllSpeeds, hfirst, beq_self_eq_true] at hout
    intro i e c he hc
    have hpt := compileEndpointList_get _ _ _ _ hout i e c he hc
    obtain ⟨m, _, hceq⟩ := compileEndpoint_spec _ _ _ _ hpt
    subst hceq
    simp only [if_pos rfl]
    refine ⟨?_, ?_, ?_⟩ <;> simp [Nat.add_comm 1 i]
  · decide

/-- Witness for the amended C3 at the scenario list: the second (OUT)
endpoint is assigned address 2 at full speed. -/
theorem endpointAddress_autoAssign_witness :
    (⟨2, 64, 0⟩ : CompiledEndpoint).bEndpointAddress =
      (1 + 1) ||| ((bulkOutEntry.endpoint.bEndpointAddress.getD 0) &&& USB_DIR_IN) := by
  have h := (endpointAddress_autoAssign scenarioList scenarioOut bulkInEntry
      (by decide) rfl (by decide)).1 1 bulkOutEntry
      (⟨2, 64, 0⟩, ⟨2, 512, 0⟩, ⟨2, 1024, 0⟩) rfl (by decide)
  exact h.1

/-! ## Arithmetic lemmas for C2 -/

theorem pyRound_nearest (q : ℚ) (m : ℤ) :
    |q - (pyRound q : ℚ)| ≤ |q - (m : ℚ)| := by
  have hf1 : ((⌊q⌋ : ℤ) : ℚ) ≤ q := Int.floor_le q
  have hf2 : q < (⌊q⌋ : ℚ) + 1 := Int.lt_floor_add_one q
  have hhalf : |q - (pyRound q : ℚ)| ≤ 1 / 2 := by
    simp only [pyRound]
    split_ifs with h1 h2 h3 <;>
      (rw [abs_le]; constructor <;> (push_cast at *; linarith))
  by_cases hm : m = pyRound q
  · rw [hm]
  · have hne : pyRound q - m ≠ 0 := sub_ne_zero.mpr (Ne.symm hm)
    have h1 : (1 : ℤ) ≤ |pyRound q - m| := Int.one_le_abs hne
    have h1q : (1 : ℚ) ≤ |(pyRound q : ℚ) - (m : ℚ)| := by exact_mod_cast h1
    have htri : |(pyRound q : ℚ) - (m : ℚ)| ≤
        |(pyRound q : ℚ) - q| + |q - (m : ℚ)| := abs_sub_le _ _ _
    have hcomm : |(pyRound q : ℚ) - q| = |q - (pyRound q : ℚ)| := abs_sub_comm _ _
    linarith

theorem roundOnePlusLog2_spec (y : ℚ) (hy : 0 < y) :
    roundOnePlusLog2 y = round (1 + Real.logb 2 (y : ℝ)) := by
  have hyR : (0 : ℝ) < (y : ℝ) := by exact_mod_cast hy
  have hb : (1 : ℝ) < 2 := one_lt_two
  have hk1 : (2 : ℚ) ^ Int.log 2 y ≤ y :=
    Int.zpow_log_le_self (by norm_num) hy
  have hk2 : y < (2 : ℚ) ^ (Int.log 2 y + 1) :=
    Int.lt_zpow_succ_log_self (by norm_num) y
  have hr1 : (2 : ℝ) ^ Int.log 2 y ≤ (y : ℝ) := by
    have h := (Rat.cast_le (K := ℝ)).mpr hk1
    rw [Rat.cast_zpow] at h
    simpa using h
  have hr2 : (y : ℝ) < (2 : ℝ) ^ (Int.log 2 y + 1) := by
    have h := (Rat.cast_lt (K := ℝ)).mpr hk2
    rw [Rat.cast_zpow] at h
    simpa using h
  have hlb : ((Int.log 2 y : ℤ) : ℝ) ≤ Real.logb 2 (y : ℝ) := by
    rw [Real.le_logb_iff_rpow_le hb hyR, Real.rpow_intCast]
    exact hr1
  have hub : Real.logb 2 (y : ℝ) < ((Int.log 2 y : ℤ) : ℝ) + 1 := by
    have h := hr2
    rw [show ((Int.log 2 y : ℤ) : ℝ) + 1 = ((Int.log 2 y + 1 : ℤ) : ℝ) by push_cast; ring]
    rw [Real.logb_lt_iff_lt_rpow hb hyR, Real.rpow_intCast]
    exact h
  have hy2R : (0 : ℝ) < (y : ℝ) ^ (2 : ℕ) := by positivity
  have hlog2 : Real.logb 2 ((y : ℝ) ^ (2 : ℕ)) = 2 * Real.logb 2 (y : ℝ) := by
    rw [Real.logb_pow]; norm_num
  simp only [roundOnePlusLog2]
  split_ifs with hcase
  · have hcR : (y : ℝ) ^ (2 : ℕ) < (2 : ℝ) ^ (2 * Int.log 2 y + 1) := by
      have h := (Rat.cast_lt (K := ℝ)).mpr hcase
      rw [Rat.cast_zpow] at h
      push_cast at h
      simpa using h
    have h3 : Real.logb 2 ((y : ℝ) ^ (2 : ℕ)) <
        ((2 * Int.log 2 y + 1 : ℤ) : ℝ) := by
      rw [Real.logb_lt_iff_lt_rpow hb hy2R, Real.rpow_intCast]
      exact hcR
    rw [hlog2] at h3
    push_cast at h3
    rw [round_eq, eq_comm, Int.floor_eq_iff]
    push_cast
    constructor <;> linarith
  · have hcR : (2 : ℝ) ^ (2 * Int.log 2 y + 1) ≤ (y : ℝ) ^ (2 : ℕ) := by
      have h := (Rat.cast_le (K := ℝ)).mpr (not_lt.mp hcase)
      rw [Rat.cast_zpow] at h
      push_cast at h
      simpa using h
    have h3 : ((2 * Int.log 2 y + 1 : ℤ) : ℝ) ≤
        Real.logb 2 ((y : ℝ) ^ (2 : ℕ)) := by
      rw [Real.le_logb_iff_rpow_le hb hy2R, Real.rpow_intCast]
      exact hcR
    rw [hlog2] at h3
    push_cast at h3
    rw [round_eq, eq_comm, Int.floor_eq_iff]
    push_cast
    constructor <;> linarith

/-! ## C2 -/

/-- Bulk IN endpoint with bInterval 7 (milliseconds field ignored for bulk
at full speed, used raw at high speed). -/
def c2wEntry : EndpointEntry := ⟨⟨some 0x80, 2, none, some 7⟩, 0, false⟩

/-- The compiled descriptors of c2wEntry. -/
def c2wOut : CompiledEndpoint × CompiledEndpoint × CompiledEndpoint :=
  (⟨0x81, 64, 0⟩, ⟨0x81, 512, 7⟩, ⟨0x81, 1024, 7⟩)

/-- C2: for every endpoint compiled by getInterfaceInAllSpeeds with a
bInterval input q, a bulk endpoint gets full-speed bInterval 0 regardless
of q and the raw q at high and super speed, while an interrupt or
isochronous endpoint gets the millisecond value rounded to a nearest
integer and clamped to 1..255 at full speed, and
round(1 + log2(q * 8)) clamped to 1..16 at high and super speed. -/
theorem bInterval_compilation (l : List EndpointEntry)
    (out : List (CompiledEndpoint × CompiledEndpoint × CompiledEndpoint))
    (i : Nat) (e : EndpointEntry)
    (c : CompiledEndpoint × CompiledEndpoint × CompiledEndpoint) (q : ℚ)
    (hout : getInterfaceInAllSpeeds l = some out)
    (he : l.get? i = some e) (hc : out.get? i = some c)
    (hq : e.endpoint.bInterval = some q) :
    (e.endpoint.bmAttributes &&& USB_ENDPOINT_XFERTYPE_MASK =
        USB_ENDPOINT_XFER_BULK →
      c.1.bInterval = 0 ∧ c.2.1.bInterval = q ∧ c.2.2.bInterval = q) ∧
    ((e.endpoint.bmAttributes &&& USB_ENDPOINT_XFERTYPE_MASK =
          USB_ENDPOINT_XFER_ISOC ∨
      e.endpoint.bmAttributes &&& USB_ENDPOINT_XFERTYPE_MASK =
          USB_ENDPOINT_XFER_INT) → 0 < q →
      (∃ r : ℤ, (∀ m : ℤ, |q - (r : ℚ)| ≤ |q - (m : ℚ)|) ∧
        c.1.bInterval = ((max 1 (min 255 r) : ℤ) : ℚ)) ∧
      c.2.1.bInterval =
        ((max 1 (min 16 (round (1 + Real.logb 2 ((q : ℝ) * 8)))) : ℤ) : ℚ) ∧
      c.2.2.bInterval = c.2.1.bInterval) := by
  obtain ⟨first, rest, rfl⟩ : ∃ f r, l = f :: r := by
    cases l with
    | nil => simp [getInterfaceInAllSpeeds] at hout
    | cons a b => exact ⟨a, b, rfl⟩
  simp only [getInterfaceInAllSpeeds] at hout
  have hpt := compileEndpointList_get _ _ _ _ hout i e c he hc
  obtain ⟨m, _, hceq⟩ := compileEndpoint_spec _ _ _ _ hpt
  subst hceq
  constructor
  · intro htype
    simp [intervalPair, hq, htype]
  · intro htype hpos
    have hne : e.endpoint.bmAttributes &&& USB_ENDPOINT_XFERTYPE_MASK ≠
        USB_ENDPOINT_XFER_BULK := by
      rcases htype with h | h <;> rw [h] <;> decide
    have hiv : intervalPair
        (e.endpoint.bmAttributes &&& USB_ENDPOINT_XFERTYPE_MASK)
        e.endpoint.bInterval =
        (((max 1 (min 255 (pyRound q)) : ℤ) : ℚ),
          ((max 1 (min 16 (roundOnePlusLog2 (q * 8))) : ℤ) : ℚ)) := by
      simp [intervalPair, hq, hne]
    have hlog : roundOnePlusLog2 (q * 8) =
        round (1 + Real.logb 2 ((q : ℝ) * 8)) := by
      have h8 : (0 : ℚ) < q * 8 := by linarith
      have h := roundOnePlusLog2_spec (q * 8) h8
      rwa [show (((q * 8 : ℚ)) : ℝ) = (q : ℝ) * 8 by push_cast; ring] at h
    refine ⟨⟨pyRound q, pyRound_nearest q, ?_⟩, ?_, ?_⟩
    · simp [hiv]
    · simp [hiv, hlog]
    · simp [hiv]

/-- Witness for C2 at a concrete bulk endpoint with bInterval 7: full-speed
interval 0, high- and super-speed interval 7. -/
theorem bInterval_compilation_witness :
    c2wOut.1.bInterval = 0 ∧ c2wOut.2.1.bInterval = 7 ∧
      c2wOut.2.2.bInterval = 7 :=
  (bInterval_compilation [c2wEntry] [c2wOut] 0 c2wEntry c2wOut 7
    (by decide) rfl rfl rfl).1 (by decide)

/-! ## String table compiler: getStrings

Embedding of functionfs/__init__.py lines 502-550 together with the binary
layout of functionfs/functionfs.py StringsHead and StringBase: a header
(magic, total length, string count, language count, each a little-endian
32-bit field) followed, per language, by a 16-bit language id and the
NUL-joined, NUL-terminated UTF-8 encoded strings.  Multi-byte fields are
reduced modulo their width as the underlying ctypes fields do.  The
ValueError raised on mismatched string counts is modelled by none. -/

def STRINGS_MAGIC : Nat := 2

/-- UTF-8 bytes of one string, as produced by str.encode in the source. -/
def encodeUTF8 (s : String) : List Nat := s.toUTF8.toList.map (fun b => b.toNat)

/-- Bytes of one language entry body: the UTF-8 strings joined by NUL with a
trailing NUL, matching bytes-join in the source. -/
def nulJoined (string_list : List String) : List Nat :=
  List.intercalate [0] (string_list.map encodeUTF8) ++ [0]

/-- Structured form of the strings blob the source serialises: the
StringsHead fields and, per language, the 16-bit language id with the
encoded string bytes. -/
structure StringsBlob where
  magic : Nat
  length : Nat
  str_count : Nat
  lang_count : Nat
  entries : List (Nat × List Nat)
deriving DecidableEq

/-- getStrings: none models the ValueError raised when two languages carry
a different number of strings; the header length is 16 (the packed
StringsHead size) plus 2 bytes of language id and the string bytes per
language. -/
def getStrings (lang_dict : List (Nat × List String)) : Option StringsBlob :=
  match lang_dict with
  | [] => some ⟨STRINGS_MAGIC, 16 % 2 ^ 32, 0, 0, []⟩
  | (_, first) :: _ =>
    if lang_dict.all (fun p => p.2.length == first.length) then
      let entries := lang_dict.map fun p => (p.1 % 2 ^ 16, nulJoined p.2)
      some ⟨STRINGS_MAGIC,
        (16 + (entries.map fun en => 2 + en.2.length).sum) % 2 ^ 32,
        first.length % 2 ^ 32, lang_dict.length % 2 ^ 32, entries⟩
    else none

/-- Language dictionary whose two languages carry different string counts. -/
def c4wDict : List (Nat × List String) := [(0x409, ["ab"]), (0x40c, [])]

/-! ## C4 -/

/-- C4: when two languages of the dictionary carry string lists of different
lengths, getStrings fails and produces no blob at all; when every language
carries the same number n of strings, the produced blob records n as the
string count and the number of languages as the language count, followed
per language by the 16-bit language id and the NUL-joined, NUL-terminated
UTF-8 string bytes. -/
theorem getStrings_spec (d : List (Nat × List String)) :
    ((∃ p ∈ d, ∃ r ∈ d, p.2.length ≠ r.2.length) → getStrings d = none) ∧
    (∀ n : Nat, d ≠ [] → (∀ p ∈ d, p.2.length = n) →
      ∃ b, getStrings d = some b ∧
        b.magic = STRINGS_MAGIC ∧
        b.str_count = n % 2 ^ 32 ∧ (n < 2 ^ 32 → b.str_count = n) ∧
        b.lang_count = d.length % 2 ^ 32 ∧
        (d.length < 2 ^ 32 → b.lang_count = d.length) ∧
        b.entries = d.map (fun p => (p.1 % 2 ^ 16, nulJoined p.2)) ∧
        b.length =
          (16 + (d.map (fun p => 2 + (nulJoined p.2).length)).sum) % 2 ^ 32) := by
  constructor
  · rintro ⟨p, hp, r, hr, hne⟩
    cases d with
    | nil => cases hp
    | cons hd tl =>
      obtain ⟨l0, s0⟩ := hd
      simp only [getStrings]
      rw [if_neg]
      intro hall
      rw [List.all_eq_true] at hall
      have h1 := hall p hp
      have h2 := hall r hr
      rw [beq_iff_eq] at h1 h2
      exact hne (h1.trans h2.symm)
  · intro n hne hall
    cases d with
    | nil => exact absurd rfl hne
    | cons hd tl =>
      obtain ⟨l0, s0⟩ := hd
      have h0 : s0.length = n := hall (l0, s0) (List.Mem.head _)
      simp only [getStrings]
      rw [if_pos]
      · refine ⟨_, rfl, rfl, by rw [h0], ?_, rfl, ?_, rfl, ?_⟩
        · intro hlt
          simp only [h0]
          exact Nat.mod_eq_of_lt hlt
        · intro hlt
          exact Nat.mod_eq_of_lt hlt
        · rw [List.map_map]
          rfl
      · rw [List.all_eq_true]
        intro p hp
        rw [beq_iff_eq, hall p hp, h0]

/-- Witness for C4: a dictionary with string counts 1 and 0 yields no
blob. -/
theorem getStrings_spec_witness : getStrings c4wDict = none :=
  (getStrings_spec c4wDict).1
    ⟨(0x409, ["ab"]), by simp [c4wDict], (0x40c, []), by simp [c4wDict],
      by decide⟩

/-! ## Control channel: processEvents setup handling and the default onSetup

Embedding of Function.processEvents (lines 1204-1222) and Function.onSetup
(lines 1294-1374).  The endpoint-zero file operations performed by the
dispatcher are recorded as a list of actions; a Python exception escaping
the handler is an error value.  The endpoint list _ep_list is modelled by
its halt flags: index 0 is the Endpoint0File, which has no isHalted or
clearHalt method (AttributeError) and whose halt method needs a
request_type argument (TypeError when called without one). -/

def USB_TYPE_MASK : Nat := 0x60

def USB_TYPE_STANDARD : Nat := 0x00

def USB_RECIP_MASK : Nat := 0x1f

def USB_RECIP_INTERFACE : Nat := 0x01

def USB_RECIP_ENDPOINT : Nat := 0x02

def USB_REQ_GET_STATUS : Nat := 0x00

def USB_REQ_CLEAR_FEATURE : Nat := 0x01

def USB_REQ_SET_FEATURE : Nat := 0x03

def USB_ENDPOINT_HALT : Nat := 0

def USB_INTRF_FUNC_SUSPEND : Nat := 0

/-- Fields of one decoded setup event. -/
structure SetupPacket where
  bRequestType : Nat
  bRequest : Nat
  wValue : Nat
  wIndex : Nat
  wLength : Nat
deriving DecidableEq

/-- Observable operations the dispatcher performs on endpoint files. -/
inductive Ep0Action where
  | write (data : List Nat)
  | read (count : Nat)
  | halt (requestType : Nat)
  | clearEndpointHalt (index : Nat)
  | haltEndpoint (index : Nat)
  | setRemoteWakeup (enabled : Bool)
deriving DecidableEq

/-- Python exceptions the default dispatcher itself can raise. -/
inductive PyError where
  | attributeError
  | typeError
deriving DecidableEq

/-- One entry of _ep_list: the control file at index 0, or a data endpoint
file with its halt flag. -/
inductive EpEntry where
  | control
  | data (halted : Bool)
deriving DecidableEq

/-- Control-channel state: the two remote-wakeup flags of Function and the
halt flags of the non-zero endpoint files, in _ep_list order. -/
structure CtrlState where
  function_remote_wakeup_capable : Bool
  function_remote_wakeup : Bool
  ep_halted : List Bool
deriving DecidableEq

/-- The two bytes of struct.pack of a 16-bit little-endian value. -/
def le16bytes (n : Nat) : List Nat := [n % 256, n / 256 % 256]

/-- getEndpoint: _ep_list indexing, none when the source raises
IndexError. -/
def getEndpointEntry (st : CtrlState) (i : Nat) : Option EpEntry :=
  if i = 0 then some EpEntry.control
  else (st.ep_halted.get? (i - 1)).map EpEntry.data

/-- The default Function.onSetup dispatcher, returning the endpoint-zero
actions it performs and the exception it raises, if any. -/
def defaultOnSetup (st : CtrlState) (s : SetupPacket) :
    List Ep0Action × Option PyError :=
  let fallthrough : List Ep0Action × Option PyError :=
    ([Ep0Action.halt s.bRequestType], none)
  if s.bRequestType &&& USB_TYPE_MASK = USB_TYPE_STANDARD then
    if s.bRequest = USB_REQ_GET_STATUS then
      if (s.bRequestType &&& USB_DIR_IN = USB_DIR_IN) ∧ s.wLength = 2 then
        if s.bRequestType &&& USB_RECIP_MASK = USB_RECIP_INTERFACE then
          if s.wValue = 0 then
            ([Ep0Action.write (le16bytes
                (if s.wIndex = 0 then
                  (if st.function_remote_wakeup_capable then 1 else 0) |||
                    (if st.function_remote_wakeup then 2 else 0)
                else 0))], none)
          else fallthrough
        else if s.bRequestType &&& USB_RECIP_MASK = USB_RECIP_ENDPOINT then
          if s.wValue = 0 then
            match getEndpointEntry st s.wIndex with
            | none => fallthrough
            | some EpEntry.control => ([], some PyError.attributeError)
            | some (EpEntry.data halted) =>
              ([Ep0Action.write (le16bytes (if halted then 1 else 0))], none)
          else fallthrough
        else fallthrough
      else fallthrough
    else if s.bRequest = USB_REQ_CLEAR_FEATURE then
      if (¬ (s.bRequestType &&& USB_DIR_IN = USB_DIR_IN)) ∧ s.wLength = 0 then
        if s.bRequestType &&& USB_RECIP_MASK = USB_RECIP_ENDPOINT then
          if s.wValue = USB_ENDPOINT_HALT then
            match getEndpointEntry st s.wIndex with
            | none => fallthrough
            | some EpEntry.control => ([], some PyError.attributeError)
            | some (EpEntry.data _) =>
              ([Ep0Action.clearEndpointHalt s.wIndex, Ep0Action.read 0], none)
          else fallthrough
        else if s.bRequestType &&& USB_RECIP_MASK = USB_RECIP_INTERFACE then
          if s.wValue = USB_INTRF_FUNC_SUSPEND then
            if st.function_remote_wakeup_capable then
              ([Ep0Action.setRemoteWakeup false, Ep0Action.read 0], none)
            else fallthrough
          else fallthrough
        else fallthrough
      else fallthrough
    else if s.bRequest = USB_REQ_SET_FEATURE then
      if (¬ (s.bRequestType &&& USB_DIR_IN = USB_DIR_IN)) ∧ s.wLength = 0 then
        if s.bRequestType &&& USB_RECIP_MASK = USB_RECIP_ENDPOINT then
          if s.wValue = USB_ENDPOINT_HALT then
            match getEndpointEntry st s.wIndex with
            | none => fallthrough
            | some EpEntry.control => ([], some PyError.typeError)
            | some (EpEntry.data _) =>
              ([Ep0Action.haltEndpoint s.wIndex, Ep0Action.read 0], none)
          else fallthrough
        else if s.bRequestType &&& USB_RECIP_MASK = USB_RECIP_INTERFACE then
          if s.wValue = USB_INTRF_FUNC_SUSPEND then
            if st.function_remote_wakeup_capable then
              ([Ep0Action.setRemoteWakeup true, Ep0Action.read 0], none)
            else fallthrough
          else fallthrough
        else fallthrough
      else fallthrough
    else fallthrough
  else fallthrough

/-- The SETUP branch of Function.processEvents: runs a setup handler and,
when it raises, halts endpoint zero before letting the exception escape. -/
def processSetupEvent {ε : Type}
    (onSetupImpl : SetupPacket → List Ep0Action × Option ε)
    (s : SetupPacket) : List Ep0Action × Option ε :=
  match onSetupImpl s with
  | (acts, none) => (acts, none)
  | (acts, some e) => (acts ++ [Ep0Action.halt s.bRequestType], some e)

/-- Setup shapes the default dispatcher recognizes, i.e. shapes on which it
either answers, performs the request, or raises, rather than falling
through to the final endpoint-zero halt. -/
def standardHandled (st : CtrlState) (s : SetupPacket) : Prop :=
  s.bRequestType &&& USB_TYPE_MASK = USB_TYPE_STANDARD ∧
  ((s.bRequest = USB_REQ_GET_STATUS ∧
      (s.bRequestType &&& USB_DIR_IN = USB_DIR_IN) ∧ s.wLength = 2 ∧
      ((s.bRequestType &&& USB_RECIP_MASK = USB_RECIP_INTERFACE ∧
          s.wValue = 0) ∨
       (s.bRequestType &&& USB_RECIP_MASK = USB_RECIP_ENDPOINT ∧
          s.wValue = 0 ∧ (getEndpointEntry st s.wIndex).isSome = true))) ∨
   ((s.bRequest = USB_REQ_CLEAR_FEATURE ∨ s.bRequest = USB_REQ_SET_FEATURE) ∧
      (¬ (s.bRequestType &&& USB_DIR_IN = USB_DIR_IN)) ∧ s.wLength = 0 ∧
      ((s.bRequestType &&& USB_RECIP_MASK = USB_RECIP_ENDPOINT ∧
          s.wValue = USB_ENDPOINT_HALT ∧
          (getEndpointEntry st s.wIndex).isSome = true) ∨
       (s.bRequestType &&& USB_RECIP_MASK = USB_RECIP_INTERFACE ∧
          s.wValue = USB_INTRF_FUNC_SUSPEND ∧
          st.function_remote_wakeup_capable = true))))

instance (st : CtrlState) (s : SetupPacket) : Decidable (standardHandled st s) := by
  unfold standardHandled
  infer_instance

/-! ## C5 -/

theorem processSetupEvent_error {ε : Type}
    (onSetupImpl : SetupPacket → List Ep0Action × Option ε)
    (s : SetupPacket) (acts : List Ep0Action) (e : ε)
    (h : onSetupImpl s = (acts, some e)) :
    processSetupEvent onSetupImpl s =
      (acts ++ [Ep0Action.halt s.bRequestType], some e) := by
  unfold processSetupEvent
  rw [h]

theorem defaultOnSetup_fallthrough (st : CtrlState) (s : SetupPacket)
    (hb : ¬ standardHandled st s) :
    defaultOnSetup st s = ([Ep0Action.halt s.bRequestType], none) := by
  simp only [defaultOnSetup]
  by_cases h1 : s.bRequestType &&& USB_TYPE_MASK = USB_TYPE_STANDARD
  case neg => rw [if_neg h1]
  rw [if_pos h1]
  by_cases h2 : s.bRequest = USB_REQ_GET_STATUS
  · rw [if_pos h2]
    by_cases h5 : (s.bRequestType &&& USB_DIR_IN = USB_DIR_IN) ∧ s.wLength = 2
    case neg => rw [if_neg h5]
    rw [if_pos h5]
    by_cases h8 : s.bRequestType &&& USB_RECIP_MASK = USB_RECIP_INTERFACE
    · by_cases h10 : s.wValue = 0
      · exact absurd ⟨h1, Or.inl ⟨h2, h5.1, h5.2, Or.inl ⟨h8, h10⟩⟩⟩ hb
      · rw [if_pos h8, if_neg h10]
    · rw [if_neg h8]
      by_cases h9 : s.bRequestType &&& USB_RECIP_MASK = USB_RECIP_ENDPOINT
      · rw [if_pos h9]
        by_cases h10 : s.wValue = 0
        · rw [if_pos h10]
          cases heq : getEndpointEntry st s.wIndex with
          | none => rfl
          | some ee =>
            exact absurd
              ⟨h1, Or.inl ⟨h2, h5.1, h5.2, Or.inr ⟨h9, h10, by rw [heq]; rfl⟩⟩⟩ hb
        · rw [if_neg h10]
      · rw [if_neg h9]
  · rw [if_neg h2]
    by_cases h3 : s.bRequest = USB_REQ_CLEAR_FEATURE
    · rw [if_pos h3]
      by_cases h5 : (¬ (s.bRequestType &&& USB_DIR_IN = USB_DIR_IN)) ∧ s.wLength = 0
      case neg => rw [if_neg h5]
      rw [if_pos h5]
      by_cases h9 : s.bRequestType &&& USB_RECIP_MASK = USB_RECIP_ENDPOINT
      · rw [if_pos h9]
        by_cases h10 : s.wValue = USB_ENDPOINT_HALT
        · rw [if_pos h10]
          cases heq : getEndpointEntry st s.wIndex with
          | none => rfl
          | some ee =>
            exact absurd
              ⟨h1, Or.inr ⟨Or.inl h3, h5.1, h5.2,
                Or.inl ⟨h9, h10, by rw [heq]; rfl⟩⟩⟩ hb
        · rw [if_neg h10]
      · rw [if_neg h9]
        by_cases h8 : s.bRequestType &&& USB_RECIP_MASK = USB_RECIP_INTERFACE
        · rw [if_pos h8]
          by_cases h10 : s.wValue = USB_INTRF_FUNC_SUSPEND
          · rw [if_pos h10]
            by_cases h11 : st.function_remote_wakeup_capable = true
            · exact absurd
                ⟨h1, Or.inr ⟨Or.inl h3, h5.1, h5.2, Or.inr ⟨h8, h10, h11⟩⟩⟩ hb
            · rw [if_neg h11]
          · rw [if_neg h10]
        · rw [if_neg h8]
    · rw [if_neg h3]
      by_cases h4 : s.bRequest = USB_REQ_SET_FEATURE
      · rw [if_pos h4]
        by_cases h5 : (¬ (s.bRequestType &&& USB_DIR_IN = USB_DIR_IN)) ∧ s.wLength = 0
        case neg => rw [if_neg h5]
        rw [if_pos h5]
        by_cases h9 : s.bRequestType &&& USB_RECIP_MASK = USB_RECIP_ENDPOINT
        · rw [if_pos h9]
          by_cases h10 : s.wValue = USB_ENDPOINT_HALT
          · rw [if_pos h10]
            cases heq : getEndpointEntry st s.wIndex with
            | none => rfl
            | some ee =>
              exact absurd
                ⟨h1, Or.inr ⟨Or.inr h4, h5.1, h5.2,
                  Or.inl ⟨h9, h10, by rw [heq]; rfl⟩⟩⟩ hb
          · rw [if_neg h10]
        · rw [if_neg h9]
          by_cases h8 : s.bRequestType &&& USB_RECIP_MASK = USB_RECIP_INTERFACE
          · rw [if_pos h8]
            by_cases h10 : s.wValue = USB_INTRF_FUNC_SUSPEND
            · rw [if_pos h10]
              by_cases h11 : st.function_remote_wakeup_capable = true
              · exact absurd
                  ⟨h1, Or.inr ⟨Or.inr h4, h5.1, h5.2, Or.inr ⟨h8, h10, h11⟩⟩⟩ hb
              · rw [if_neg h11]
            · rw [if_neg h10]
          · rw [if_neg h8]
      · rw [if_neg h4]

/-- C5: when a setup handler raises any exception, the event pump halts
endpoint zero and only then lets the exception propagate to the caller of
processEvents; and on every setup request that matches none of the shapes
the default onSetup recognizes, the default dispatcher halts endpoint zero
instead of raising or silently returning. -/
theorem setupException_stalls_and_unrecognized_halts :
    (∀ (ε : Type) (onSetupImpl : SetupPacket → List Ep0Action × Option ε)
        (s : SetupPacket) (acts : List Ep0Action) (e : ε),
      onSetupImpl s = (acts, some e) →
      processSetupEvent onSetupImpl s =
        (acts ++ [Ep0Action.halt s.bRequestType], some e)) ∧
    (∀ (st : CtrlState) (s : SetupPacket), ¬ standardHandled st s →
      defaultOnSetup st s = ([Ep0Action.halt s.bRequestType], none)) :=
  ⟨fun _ onSetupImpl s acts e h => processSetupEvent_error onSetupImpl s acts e h,
   fun st s hb => defaultOnSetup_fallthrough st s hb⟩

/-- Witness for C5: a handler raising on a class request leads to an
endpoint-zero halt followed by propagation, and a standard GET_STATUS with
device recipient (recognized by no shape) is answered by a halt. -/
theorem setupException_stalls_witness :
    processSetupEvent (fun _ => ([], some 0)) ⟨0x21, 9, 0x0200, 0, 8⟩ =
      ([Ep0Action.halt 0x21], some (0 : Nat)) ∧
    defaultOnSetup ⟨false, false, []⟩ ⟨0x80, 0, 0, 0, 2⟩ =
      ([Ep0Action.halt 0x80], none) :=
  ⟨(setupException_stalls_and_unrecognized_halts).1 Nat
      (fun _ => ([], some 0)) ⟨0x21, 9, 0x0200, 0, 8⟩ [] 0 rfl,
   (setupException_stalls_and_unrecognized_halts).2 ⟨false, false, []⟩
      ⟨0x80, 0, 0, 0, 2⟩ (by decide)⟩

/-! ## C6 -/

/-- C6: for a standard GET_STATUS directed at an interface with an IN data
phase of length 2 and value 0, the default handler writes a 2-byte
little-endian bitmap whose bit 0 is the remote-wakeup-capable flag and
bit 1 the remote-wakeup-enabled flag when the index is 0, and which is zero
when the index is non-zero; before any SET_FEATURE(FUNCTION_SUSPEND), i.e.
while remote wakeup is disabled, the answer is 0x0000 when not capable and
has exactly bit 0 set when capable. -/
theorem getStatusInterface_bitmap (st : CtrlState) (s : SetupPacket)
    (h1 : s.bRequestType &&& USB_TYPE_MASK = USB_TYPE_STANDARD)
    (h2 : s.bRequest = USB_REQ_GET_STATUS)
    (h3 : s.bRequestType &&& USB_DIR_IN = USB_DIR_IN)
    (h4 : s.wLength = 2)
    (h5 : s.bRequestType &&& USB_RECIP_MASK = USB_RECIP_INTERFACE)
    (h6 : s.wValue = 0) :
    defaultOnSetup st s =
      ([Ep0Action.write
          [(if s.wIndex = 0 then
              (if st.function_remote_wakeup_capable then 1 else 0) +
                (if st.function_remote_wakeup then 2 else 0)
            else 0), 0]], none) ∧
    (st.function_remote_wakeup = false →
      defaultOnSetup st s =
        ([Ep0Action.write
            [(if st.function_remote_wakeup_capable = true ∧ s.wIndex = 0
                then 1 else 0), 0]], none)) := by
  have hmain : defaultOnSetup st s =
      ([Ep0Action.write (le16bytes
          (if s.wIndex = 0 then
            (if st.function_remote_wakeup_capable then 1 else 0) |||
              (if st.function_remote_wakeup then 2 else 0)
          else 0))], none) := by
    simp only [defaultOnSetup]
    rw [if_pos h1, if_pos h2, if_pos ⟨h3, h4⟩, if_pos h5, if_pos h6]
  constructor
  · rw [hmain]
    by_cases hi : s.wIndex = 0 <;>
      by_cases hc : st.function_remote_wakeup_capable = true <;>
        by_cases hw : st.function_remote_wakeup = true <;>
          simp only [hi, hc, hw, if_pos, if_neg, le16bytes, if_true, if_false,
            Bool.not_eq_true] <;>
            simp [hi, hc, hw, le16bytes]
  · intro hw0
    rw [hmain]
    by_cases hi : s.wIndex = 0 <;>
      by_cases hc : st.function_remote_wakeup_capable = true <;>
        simp [hi, hc, hw0, le16bytes]

/-- Witness for C6: with index 0 and no prior SET_FEATURE(FUNCTION_SUSPEND),
a capable function answers 0x0001 and a non-capable one answers 0x0000. -/
theorem getStatusInterface_bitmap_witness :
    defaultOnSetup ⟨true, false, []⟩ ⟨0x81, 0, 0, 0, 2⟩ =
      ([Ep0Action.write [1, 0]], none) ∧
    defaultOnSetup ⟨false, false, []⟩ ⟨0x81, 0, 0, 0, 2⟩ =
      ([Ep0Action.write [0, 0]], none) := by
  constructor
  · have h := (getStatusInterface_bitmap ⟨true, false, []⟩ ⟨0x81, 0, 0, 0, 2⟩
      rfl rfl rfl rfl rfl rfl).2 rfl
    simpa using h
  · have h := (getStatusInterface_bitmap ⟨false, false, []⟩ ⟨0x81, 0, 0, 0, 2⟩
      rfl rfl rfl rfl rfl rfl).2 rfl
    simpa using h

/-! ## Asynchronous IN endpoint completion and submission

Embedding of EndpointINFile._onComplete (lines 755-785), EndpointINFile.submit
(lines 713-753) and the default onSubmitEAGAIN hook (lines 814-828).  The
result of the external AIOContext.submit call is a parameter: ok, or an
OSError errno. -/

def EAGAIN : Nat := 11

def ESHUTDOWN : Nat := 108

/-- Truthiness classes of the value returned by onComplete: a falsy value,
the True builtin, or another truthy value used as the new buffer list. -/
inductive CallbackResult (β : Type) where
  | falsy
  | trueLit
  | newBuffers (buffers : β)
deriving DecidableEq

/-- What one completion dispatch does to the transfer block. -/
inductive CompletionOutcome (β : Type) where
  | noResubmit
  | contractViolation
  | resubmitted (buffers : β)
  | eagainHook (buffers : β)
  | submitRaised (code : Nat)
deriving DecidableEq

/-- EndpointINFile._onComplete: on a truthy callback result, raise
ValueError when the completion status is -ESHUTDOWN, otherwise replace the
buffer list when the result is not the True builtin and resubmit the same
AIO block, routing an EAGAIN submission failure to onSubmitEAGAIN. -/
def handleINCompletion {β : Type} (res : Int) (origBuffers : β)
    (cb : CallbackResult β) (submitResult : Except Nat Unit) :
    CompletionOutcome β :=
  match cb with
  | .falsy => .noResubmit
  | .trueLit =>
    if res = -(ESHUTDOWN : Int) then .contractViolation
    else
      match submitResult with
      | .ok _ => .resubmitted origBuffers
      | .error e =>
        if e = EAGAIN then .eagainHook origBuffers else .submitRaised e
  | .newBuffers b =>
    if res = -(ESHUTDOWN : Int) then .contractViolation
    else
      match submitResult with
      | .ok _ => .resubmitted b
      | .error e => if e = EAGAIN then .eagainHook b else .submitRaised e

/-! ## C7 -/

/-- C7: a completion with status -ESHUTDOWN whose callback requests
resubmission (returns any truthy value) makes the dispatcher raise, and the
transfer is not resubmitted; with any other status, returning True
resubmits the same block with the same buffers and returning another truthy
value resubmits with that value as the replacement buffer list. -/
theorem inCompletion_resubmission (β : Type) (b0 nb : β)
    (cb : CallbackResult β) (sr : Except Nat Unit) (res : Int) :
    (cb ≠ CallbackResult.falsy →
      handleINCompletion (-(ESHUTDOWN : Int)) b0 cb sr =
        CompletionOutcome.contractViolation ∧
      ∀ b, handleINCompletion (-(ESHUTDOWN : Int)) b0 cb sr ≠
        CompletionOutcome.resubmitted b) ∧
    (res ≠ -(ESHUTDOWN : Int) →
      handleINCompletion res b0 CallbackResult.trueLit (Except.ok ()) =
        CompletionOutcome.resubmitted b0) ∧
    (res ≠ -(ESHUTDOWN : Int) →
      handleINCompletion res b0 (CallbackResult.newBuffers nb) (Except.ok ()) =
        CompletionOutcome.resubmitted nb) := by
  refine ⟨?_, ?_, ?_⟩
  · intro hne
    cases cb with
    | falsy => exact absurd rfl hne
    | trueLit => exact ⟨by simp [handleINCompletion], by simp [handleINCompletion]⟩
    | newBuffers b => exact ⟨by simp [handleINCompletion], by simp [handleINCompletion]⟩
  · intro hres
    simp [handleINCompletion, hres]
  · intro hres
    simp [handleINCompletion, hres]

/-- Witness for C7 with concrete buffers: a shutdown completion with a
resubmission request raises, and ordinary completions resubmit with the
kept or replaced buffers. -/
theorem inCompletion_resubmission_witness :
    handleINCompletion (-(ESHUTDOWN : Int)) (1 : Nat) CallbackResult.trueLit
        (Except.ok ()) = CompletionOutcome.contractViolation ∧
    handleINCompletion 0 (1 : Nat) CallbackResult.trueLit (Except.ok ()) =
      CompletionOutcome.resubmitted 1 ∧
    handleINCompletion 0 (1 : Nat) (CallbackResult.newBuffers 2)
        (Except.ok ()) = CompletionOutcome.resubmitted 2 := by
  have h := inCompletion_resubmission Nat 1 2 CallbackResult.trueLit
    (Except.ok ()) 0
  exact ⟨(h.1 (by decide)).1, h.2.1 (by decide), h.2.2 (by decide)⟩

/-! ## C8 -/

/-- Result of one call to EndpointINFile.submit as seen by the caller. -/
inductive SubmitOutcome where
  | submitted
  | eagainHookCalled
  | raised (code : Nat)
deriving DecidableEq

/-- EndpointINFile.submit: a submission failure with errno EAGAIN is routed
to the onSubmitEAGAIN hook; any other OSError propagates unchanged. -/
def submitIN (aioResult : Except Nat Unit) : SubmitOutcome :=
  match aioResult with
  | .ok _ => .submitted
  | .error e => if e = EAGAIN then .eagainHookCalled else .raised e

/-- EndpointINFile.submit composed with the default onSubmitEAGAIN hook,
which re-raises the original EAGAIN OSError. -/
def submitINDefaultHook (aioResult : Except Nat Unit) : SubmitOutcome :=
  match submitIN aioResult with
  | .eagainHookCalled => .raised EAGAIN
  | r => r

/-- Modelled from the spec: the in-flight block budget lives in the external
libaio AIOContext (sized by in_aio_blocks_max), whose code is not under
src/; the spec describes submission as failing with EAGAIN exactly when the
in-flight budget is exhausted, a completion freeing one unit of
capacity. -/
def aioContextSubmit (in_flight capacity : Nat) : Except Nat Unit :=
  if in_flight < capacity then .ok () else .error EAGAIN

/-- C8: an EAGAIN submission failure is routed to the dedicated
onSubmitEAGAIN hook (whose default re-raises the EAGAIN error) and is
thereby distinguishable from every other submission error, which propagates
unchanged; with the budget-modelled AIO context, submitting at full budget
takes the backpressure path and, after a completion frees capacity, the
same submission succeeds. -/
theorem submit_backpressure :
    (submitIN (Except.error EAGAIN) = SubmitOutcome.eagainHookCalled ∧
      submitINDefaultHook (Except.error EAGAIN) = SubmitOutcome.raised EAGAIN) ∧
    (∀ e, e ≠ EAGAIN →
      submitIN (Except.error e) = SubmitOutcome.raised e ∧
      submitIN (Except.error e) ≠ SubmitOutcome.eagainHookCalled) ∧
    (∀ n, 0 < n →
      submitIN (aioContextSubmit n n) = SubmitOutcome.eagainHookCalled ∧
      submitIN (aioContextSubmit (n - 1) n) = SubmitOutcome.submitted) := by
  refine ⟨⟨rfl, rfl⟩, ?_, ?_⟩
  · intro e he
    constructor <;> simp [submitIN, he]
  · intro n hn
    constructor
    · simp [submitIN, aioContextSubmit]
    · have hlt : n - 1 < n := by omega
      simp [submitIN, aioContextSubmit, hlt]

/-- Witness for C8 at budget 32: the 33rd in-flight submission takes the
backpressure path, a non-EAGAIN errno propagates, and after one completion
the submission succeeds. -/
theorem submit_backpressure_witness :
    submitIN (Except.error 22) = SubmitOutcome.raised 22 ∧
    submitIN (aioContextSubmit 32 32) = SubmitOutcome.eagainHookCalled ∧
    submitIN (aioContextSubmit 31 32) = SubmitOutcome.submitted := by
  have h := submit_backpressure
  exact ⟨(h.2.1 22 (by decide)).1, (h.2.2 32 (by decide)).1,
    (h.2.2 32 (by decide)).2⟩

/-! ## Function close: C9 -/

/-- State touched by Function.__exit__ and Function.__unenter: the _open
flag, the endpoint file list, the in-flight AIO blocks of the IN and OUT
contexts (the OUT context exists only when there are OUT endpoints) and the
OUT block list. -/
structure FunctionState where
  is_open : Bool
  ep_list : List Nat
  in_flight_in : List Nat
  has_out_context : Bool
  in_flight_out : List Nat
  out_aio_block_list : List Nat
deriving DecidableEq

/-- Observable effects of closing: one cancellation per in-flight block and
one close per endpoint file. -/
inductive CloseAction where
  | cancelled (block : Nat)
  | closedFile (file : Nat)
deriving DecidableEq

/-- Function.__unenter (lines 1075-1086): cancel every in-flight block of
the IN context, then of the OUT context when it exists (also dropping the
OUT block list), then pop and close every endpoint file. -/
def unenter (s : FunctionState) : FunctionState × List CloseAction :=
  ({ s with
      in_flight_in := [],
      in_flight_out := if s.has_out_context then [] else s.in_flight_out,
      out_aio_block_list :=
        if s.has_out_context then [] else s.out_aio_block_list,
      ep_list := [] },
    s.in_flight_in.map CloseAction.cancelled ++
      (if s.has_out_context then s.in_flight_out.map CloseAction.cancelled
        else []) ++
      s.ep_list.reverse.map CloseAction.closedFile)

/-- Function.__exit__ (lines 1088-1095): clear the _open flag, then undo
what __enter__ did. -/
def exitFunction (s : FunctionState) : FunctionState × List CloseAction :=
  unenter { s with is_open := false }

/-- C9: closing a Function twice has no observable effect the second time:
the second close leaves the state exactly as the first close left it and
performs no action at all, in particular it cancels no transfer and closes
no file again. -/
theorem close_idempotent (s : FunctionState) :
    exitFunction (exitFunction s).1 = ((exitFunction s).1, []) := by
  obtain ⟨o, ep, ifi, hoc, ifo, obl⟩ := s
  cases hoc <;> simp [exitFunction, unenter]

/-! ## Endpoint file direction enforcement: C10 -/

/-- The read-family methods of EndpointINFile (lines 692-701): read,
readinto, readall, readlines and readline are all bound to the same static
method. -/
inductive ReadMethod where
  | read
  | readinto
  | readall
  | readlines
  | readline
deriving DecidableEq

/-- The write-family methods of EndpointOUTFile (lines 851-857). -/
inductive WriteMethod where
  | write
  | writelines
deriving DecidableEq

/-- EndpointINFile read family: ignores all arguments and raises IOError. -/
def endpointINFileRead (α β : Type) (_method : ReadMethod) (_args : α) :
    Except String β := Except.error "File not open for reading"

/-- EndpointINFile.readable (lines 703-708). -/
def endpointINFileReadable : Bool := false

/-- EndpointOUTFile write family: ignores all arguments and raises
IOError. -/
def endpointOUTFileWrite (α β : Type) (_method : WriteMethod) (_args : α) :
    Except String β := Except.error "File not open for writing"

/-- EndpointOUTFile.writable (lines 859-864). -/
def endpointOUTFileWritable : Bool := false

/-- C10: every read-family operation on an opened IN endpoint file raises
IOError for all arguments and readable() is false; symmetrically every
write-family operation on an opened OUT endpoint file raises IOError and
writable() is false, so no data moves against an endpoint direction through
these objects. -/
theorem endpointDirection_enforced :
    (∀ (α β : Type) (method : ReadMethod) (args : α),
      endpointINFileRead α β method args =
        Except.error "File not open for reading") ∧
    endpointINFileReadable = false ∧
    (∀ (α β : Type) (method : WriteMethod) (args : α),
      endpointOUTFileWrite α β method args =
        Except.error "File not open for writing") ∧
    endpointOUTFileWritable = false :=
  ⟨fun _ _ _ _ => rfl, rfl, fun _ _ _ _ => rfl, rfl⟩

end Functionfs
